import Mathlib

/-!
Verification of the bulk image optimizer (`src/main.py`) against its
natural-language specification.  The Python program is shallowly embedded:
Python strings become `List Char`, the relevant pieces of `os.path` and of
Pillow's behaviour are modelled as pure Lean functions, fallible operations
(decode, save) become `Except` values supplied by an environment record, and
the batch loop becomes structural recursion over the list of per-item
outcomes with an explicit cancellation observation function.
-/

namespace BulkImageOptimizer

/-- Python strings, embedded as lists of characters. -/
abbrev PyStr := List Char

/-- `str.lower()` (ASCII model). -/
def pyLower (s : PyStr) : PyStr := s.map Char.toLower

/-- `str.upper()` (ASCII model). -/
def pyUpper (s : PyStr) : PyStr := s.map Char.toUpper

/-- `str.isdigit()` restricted to ASCII: true iff the string is nonempty and
every character is a decimal digit.  (CPython additionally accepts some
Unicode digit characters; the ASCII fragment is what the UI produces.) -/
def pyIsDigit (s : PyStr) : Bool := !s.isEmpty && s.all Char.isDigit

/-- `int(s)` for a string of decimal digits. -/
def pyInt (s : PyStr) : Nat := s.foldl (fun a c => a * 10 + (c.toNat - 48)) 0

/-- `os.path.basename` on POSIX paths: the longest suffix containing no
separator, i.e. `p[p.rfind('/') + 1 :]`. -/
def basename (p : PyStr) : PyStr := (p.reverse.takeWhile (· ≠ '/')).reverse

/-- `os.path.dirname` on POSIX paths: `p[: p.rfind('/') + 1]`, with trailing
separators stripped unless the prefix consists only of separators. -/
def dirname (p : PyStr) : PyStr :=
  let head := p.take (p.length - (basename p).length)
  if !head.isEmpty && !head.all (· = '/') then
    (head.reverse.dropWhile (· = '/')).reverse
  else head

/-- `os.path.splitext` on a separator-free file name (the shared helper
`genericpath._splitext` restricted to a basename): the extension starts at the
last dot, provided some non-dot character precedes that dot — leading dots of
the name never begin an extension. -/
def splitextBase (b : PyStr) : PyStr × PyStr :=
  let afterDots := b.dropWhile (· = '.')
  if afterDots.any (· = '.') then
    let ext : PyStr := '.' :: (b.reverse.takeWhile (· ≠ '.')).reverse
    (b.take (b.length - ext.length), ext)
  else (b, [])

/-- `os.path.splitext` on a full POSIX path: only dots after the last
separator are considered, so the split point lies inside `basename p`. -/
def splitext (p : PyStr) : PyStr × PyStr :=
  let e := (splitextBase (basename p)).2
  (p.take (p.length - e.length), e)

/-- `os.path.join` for two POSIX path components. -/
def pyJoin (a b : PyStr) : PyStr :=
  if b.head? = some '/' then b
  else if a.isEmpty || a.getLast? = some '/' then a ++ b
  else a ++ '/' :: b

/-- The settings dictionary captured by `start_optimization` (main.py,
lines 599–616), one field per key. -/
structure Settings where
  jpg_quality : Nat
  png_compression : Nat
  resize : Bool
  max_width : Nat
  max_height : Nat
  convert_format : PyStr
  preserve_names : Bool
  output_dir : PyStr
deriving DecidableEq, Repr

/-- Capture of one numeric resize bound (main.py lines 603–612):
`int(raw) if raw.isdigit() else default`. -/
def parse_dim (raw : PyStr) (default : Nat) : Nat :=
  if pyIsDigit raw then pyInt raw else default

/-- Construction of the settings dictionary from the raw widget values
(main.py lines 599–616). -/
def build_settings (jpg_quality png_compression : Nat) (resize : Bool)
    (max_width_raw max_height_raw : PyStr) (convert_format : PyStr)
    (preserve_names : Bool) (output_dir : PyStr) : Settings :=
  { jpg_quality := jpg_quality
    png_compression := png_compression
    resize := resize
    max_width := parse_dim max_width_raw 1920
    max_height := parse_dim max_height_raw 1080
    convert_format := convert_format
    preserve_names := preserve_names
    output_dir := output_dir }

/-- The resize computation of `optimize_image` (main.py lines 681–696).
Given the `resize` flag, the bounds and the source dimensions, it returns the
dimensions passed to `img.resize`.  Python's `int()` truncates toward zero;
all quantities here are nonnegative, so it is the floor. -/
def resize_dims (resize : Bool) (max_width max_height w h : Nat) : Nat × Nat :=
  if resize && (decide (w > max_width) || decide (h > max_height)) then
    let width_ratio : ℚ := (max_width : ℚ) / (w : ℚ)
    let height_ratio : ℚ := (max_height : ℚ) / (h : ℚ)
    let ratio := min width_ratio height_ratio
    ((⌊(w : ℚ) * ratio⌋).toNat, (⌊(h : ℚ) * ratio⌋).toNat)
  else (w, h)

example : resize_dims true 1920 1080 3840 2160 = (1920, 1080) := by
  norm_num [resize_dims]
  all_goals omega
example : resize_dims true 1920 50 1 100 = (0, 50) := by
  norm_num [resize_dims]
  all_goals omega
example : resize_dims true 1920 1080 100 50 = (100, 50) := by
  norm_num [resize_dims]
example : basename "a/b/c.png".data = "c.png".data := by decide
example : splitext "a/b/c.tar.gz".data = ("a/b/c.tar".data, ".gz".data) := by decide
example : splitext "a.b/c".data = (("a.b/c".data, []) : PyStr × PyStr) := by decide
example : splitext "/a/.bashrc".data = (("/a/.bashrc".data, []) : PyStr × PyStr) := by decide
example : dirname "a/b/c.png".data = "a/b".data := by decide
example : pyJoin "out".data "x.png".data = "out/x.png".data := by decide
example : parse_dim "0".data 1920 = 0 := by decide
example : parse_dim "12a".data 1920 = 1920 := by decide

/-- The output-file-name computation of `optimize_image` (main.py
lines 708–731).  With `preserve_names` the name is the source base name with
the conversion extension substituted when converting; otherwise the base name
is suffixed with `_optimized_` and the current unix timestamp.  Note that the
`preserve_names` branch takes the original extension from the base name while
the timestamp branch takes it from the full path. -/
def output_filename (file_path : PyStr) (convert_format : PyStr)
    (preserve_names : Bool) (timestamp : Nat) : PyStr :=
  if preserve_names then
    let base_name := basename file_path
    let file_name := (splitext base_name).1
    let original_ext := (splitext base_name).2
    let new_ext :=
      if convert_format ≠ "original".data then '.' :: pyLower convert_format
      else original_ext
    file_name ++ new_ext
  else
    let file_name := basename file_path
    let name_without_ext := (splitext file_name).1
    let ext :=
      if convert_format ≠ "original".data then '.' :: pyLower convert_format
      else (splitext file_path).2
    name_without_ext ++ "_optimized_".data ++ (toString timestamp).data ++ ext

/-- The output path of `optimize_image` (main.py line 733). -/
def output_path (file_path : PyStr) (s : Settings) (timestamp : Nat) : PyStr :=
  pyJoin s.output_dir (output_filename file_path s.convert_format s.preserve_names timestamp)

/-- The slice of a Pillow `Image` object that `optimize_image` inspects:
pixel dimensions, color mode (`"RGB"`, `"RGBA"`, …) and the detected source
format (`img.format`, `None` for images not read from a file). -/
structure PILImage where
  width : Nat
  height : Nat
  mode : PyStr
  format : Option PyStr
deriving DecidableEq, Repr

/-- The fallible environment of one `optimize_image` call: the outcome of
`Image.open` on this path, the outcome of `img.save` as a function of the
target path, the format string passed to `save`, and the image being saved,
and the value of `int(time.time())` at the call. -/
structure FsEnv where
  open_result : Except PyStr PILImage
  save_result : PyStr → PyStr → PILImage → Except PyStr Unit
  timestamp : Nat

/-- The modes that the JPEG branch of `optimize_image` flattens (main.py
line 738). -/
def jpeg_flatten_modes : List PyStr := ["RGBA".data, "LA".data, "P".data]

/-- The JPEG color-mode conversion of `optimize_image` (main.py
lines 736–743): an image whose mode carries alpha or a palette is pasted onto
a fresh opaque white `"RGB"` background of the same size. -/
def jpeg_flatten (img : PILImage) : PILImage :=
  if img.mode ∈ jpeg_flatten_modes then { img with mode := "RGB".data } else img

/-- Modes with an alpha channel in Pillow (an image in any other mode is
opaque). -/
def mode_has_alpha (mode : PyStr) : Bool :=
  mode ∈ ["RGBA".data, "LA".data, "PA".data, "RGBa".data, "La".data]

/-- The raw modes Pillow's JPEG encoder accepts (`JpegImagePlugin.RAWMODE`);
`img.save(..., format="JPEG")` raises `OSError` for any other mode. -/
def jpeg_rawmodes : List PyStr :=
  ["1".data, "L".data, "RGB".data, "RGBX".data, "CMYK".data, "YCbCr".data]

/-- Modelled from Pillow's encoders: saving as JPEG fails when the mode is
outside `RAWMODE` (alpha or palette modes); other formats accept the modes
this program produces.  Used to instantiate `FsEnv.save_result` when the
claim is about encoder behaviour rather than I/O failure. -/
def pil_save (_path fmt : PyStr) (img : PILImage) : Except PyStr Unit :=
  if fmt = "JPEG".data ∧ img.mode ∉ jpeg_rawmodes then
    .error "cannot write mode as JPEG".data
  else .ok ()

/-- The resize step of `optimize_image` (main.py lines 681–696) applied to
the decoded image: `img.resize` runs exactly when resizing is enabled and a
dimension exceeds its bound; Pillow's `resize` returns a fresh image whose
`format` attribute is `None`, with the color mode preserved. -/
def apply_resize (s : Settings) (img : PILImage) : PILImage :=
  if s.resize && (decide (img.width > s.max_width) || decide (img.height > s.max_height))
  then
    let dims := resize_dims s.resize s.max_width s.max_height img.width img.height
    { img with width := dims.1, height := dims.2, format := none }
  else img

/-- Output-format determination (main.py lines 698–706): the conversion
format uppercased when converting, otherwise the detected source format,
defaulting to PNG when undetectable. -/
def determine_output_format (convert_format : PyStr) (img_format : Option PyStr) : PyStr :=
  if convert_format ≠ "original".data then pyUpper convert_format
  else img_format.getD "PNG".data

/-- The format-specific save dispatch of `optimize_image` (main.py
lines 735–771): JPEG output flattens alpha/palette modes first; PNG and WEBP
pass their own parameter sets; anything else saves with defaults. -/
def encode_save (env : FsEnv) (out_path output_format : PyStr) (img : PILImage) :
    Except PyStr Unit :=
  if output_format = "JPEG".data ∨ output_format = "JPG".data then
    env.save_result out_path "JPEG".data (jpeg_flatten img)
  else if output_format = "PNG".data then
    env.save_result out_path "PNG".data img
  else if output_format = "WEBP".data then
    env.save_result out_path "WEBP".data img
  else
    env.save_result out_path output_format img

/-- The body of `optimize_image` (main.py lines 676–773), i.e. everything
inside its `try`: decode, optional resize, output-format determination,
output-path derivation, JPEG flattening, and the format-specific save call.
A raised exception at any step is an `Except.error`. -/
def optimize_image_body (file_path : PyStr) (s : Settings) (env : FsEnv) :
    Except PyStr PyStr :=
  match env.open_result with
  | .error e => .error e
  | .ok img0 =>
    let img := apply_resize s img0
    let output_format := determine_output_format s.convert_format img.format
    let out_path := output_path file_path s env.timestamp
    match encode_save env out_path output_format img with
    | .ok _ => .ok out_path
    | .error e => .error e

/-- `optimize_image` (main.py lines 674–777): the body wrapped in
`try … except`, returning `True` on success and `False` on any failure. -/
def optimize_image (file_path : PyStr) (s : Settings) (env : FsEnv) : Bool :=
  match optimize_image_body file_path s env with
  | .ok _ => true
  | .error _ => false

/-- The three counters of `process_images` (main.py lines 635–638). -/
structure BatchCounters where
  processed : Nat
  successful : Nat
  failed : Nat
deriving DecidableEq, Repr

/-- The loop of `process_images` (main.py lines 640–669).  `results` lists
the per-item outcomes (`optimize_image` returning true/false; an exception
caught by the loop's own handler also counts as a failure), `cancelAt i` is
the value of `not self.processing` observed at the top of iteration `i`, and
`c` is the accumulator.  Observing cancellation breaks out of the loop. -/
def processLoop (cancelAt : Nat → Bool) : List Bool → Nat → BatchCounters → BatchCounters
  | [], _, c => c
  | r :: rest, i, c =>
    if cancelAt i then c
    else
      processLoop cancelAt rest (i + 1)
        { processed := c.processed + 1
          successful := c.successful + if r then 1 else 0
          failed := c.failed + if r then 0 else 1 }

/-- `process_images` (main.py lines 633–672): run the loop from the zero
counters; the final counters are handed to `finish_optimization` as the
run's outcome. -/
def process_images (results : List Bool) (cancelAt : Nat → Bool) : BatchCounters :=
  processLoop cancelAt results 0 ⟨0, 0, 0⟩

/-- Outcome of one `start_optimization` call (main.py lines 574–631): the
empty-selection warning dialog, the directory-creation error dialog, or a
started run with the captured file list and settings. -/
inductive StartOutcome where
  | warnNoFiles : StartOutcome
  | dirError : StartOutcome
  | started : List PyStr → Settings → StartOutcome
deriving DecidableEq

/-- The widget values `start_optimization` reads. -/
structure ControlInputs where
  selected_files : List PyStr
  output_dir_raw : PyStr
  jpg_quality : Nat
  png_compression : Nat
  resize : Bool
  max_width_raw : PyStr
  max_height_raw : PyStr
  convert_format : PyStr
  preserve_names : Bool
deriving DecidableEq

/-- Output-directory resolution (main.py lines 581–586): an empty entry
defaults to an `optimized` subfolder next to the first selected file. -/
def resolve_output_dir (inp : ControlInputs) : PyStr :=
  if inp.output_dir_raw = [] then
    pyJoin (dirname (inp.selected_files.headD [])) "optimized".data
  else inp.output_dir_raw

/-- `start_optimization` (main.py lines 574–631) up to the spawning of the
worker thread.  `dir_exists` models `os.path.exists` and `makedirs_ok`
models whether `os.makedirs` succeeds. -/
def start_optimization (inp : ControlInputs) (dir_exists makedirs_ok : PyStr → Bool) :
    StartOutcome :=
  if inp.selected_files = [] then .warnNoFiles
  else
    let out := resolve_output_dir inp
    if !dir_exists out && !makedirs_ok out then .dirError
    else
      .started inp.selected_files
        (build_settings inp.jpg_quality inp.png_compression inp.resize
          inp.max_width_raw inp.max_height_raw inp.convert_format
          inp.preserve_names out)

/-- The UI state shared between the control and worker contexts: the
`self.processing` flag and the enabled/disabled state of the start and
cancel buttons. -/
structure UiState where
  processing : Bool
  optimize_enabled : Bool
  cancel_enabled : Bool
deriving DecidableEq, Repr

/-- State before any run (`__init__`, line 148, and the widget defaults). -/
def initial_ui : UiState := ⟨false, true, false⟩

/-- Events at the control boundary: a click on the start button (with the
validation outcome the handler would compute), the worker's terminal
`finish_optimization` callback, and a click on the cancel button. -/
inductive UiEvent where
  | clickStart : StartOutcome → UiEvent
  | workerFinish : UiEvent
  | clickCancel : UiEvent

/-- One step of the control boundary; the `Bool` records whether a worker
thread was spawned by this event.  Tk semantics: a disabled button never
invokes its command, so a click on a disabled widget leaves the state
unchanged.  A successful `start_optimization` sets `processing` and flips
the buttons (main.py lines 618–631); `finish_optimization` resets them
(lines 779–783); `cancel_optimization` clears `processing` when set
(lines 797–802). -/
def ui_step : UiState → UiEvent → UiState × Bool
  | st, .clickStart o =>
    if st.optimize_enabled = false then (st, false)
    else
      match o with
      | .started _ _ => (⟨true, false, true⟩, true)
      | .warnNoFiles => (st, false)
      | .dirError => (st, false)
  | _, .workerFinish => (⟨false, true, false⟩, false)
  | st, .clickCancel =>
    if st.cancel_enabled = false then (st, false)
    else if st.processing then ({ st with processing := false }, false)
    else (st, false)

/-- OutputNamer as the specification states it (§4.2): the base is the source
file name without its extension; the extension is the conversion extension
when converting, otherwise the source's original extension; without
`preserveNames`, `_optimized_` and the timestamp are inserted between base
and extension.  Written from the spec's words, to be compared with
`output_filename`, which is translated from the code. -/
def spec_output_filename (sourcePath : PyStr) (targetFormat : PyStr)
    (preserveNames : Bool) (unixTimestamp : Nat) : PyStr :=
  let base := (splitext (basename sourcePath)).1
  let extension :=
    if targetFormat ≠ "original".data then '.' :: pyLower targetFormat
    else (splitext (basename sourcePath)).2
  if preserveNames then base ++ extension
  else base ++ "_optimized_".data ++ (toString unixTimestamp).data ++ extension

/-! ## Supporting lemmas -/

/-- A basename contains no path separator. -/
theorem basename_no_sep (p : PyStr) : '/' ∉ basename p := by
  intro h
  rw [basename, List.mem_reverse] at h
  have := List.mem_takeWhile_imp h
  simp at this

/-- `basename` is idempotent. -/
theorem basename_idem (p : PyStr) : basename (basename p) = basename p := by
  conv_lhs => rw [basename]
  rw [List.takeWhile_eq_self_iff.mpr, List.reverse_reverse]
  intro x hx
  rw [List.mem_reverse] at hx
  have : x ≠ '/' := fun he => basename_no_sep p (he ▸ hx)
  simpa using this

/-- The extension `os.path.splitext` finds on a full path is the one it finds
on the path's basename: only dots after the last separator matter. -/
theorem splitext_basename_snd (p : PyStr) :
    (splitext (basename p)).2 = (splitext p).2 := by
  simp [splitext, basename_idem]

/-- The loop of `process_images` preserves the counter-sum invariant and
processes at most the remaining items. -/
theorem processLoop_invariant (cancelAt : Nat → Bool) :
    ∀ (l : List Bool) (i : Nat) (c : BatchCounters),
      c.successful + c.failed = c.processed →
      ((processLoop cancelAt l i c).successful + (processLoop cancelAt l i c).failed
          = (processLoop cancelAt l i c).processed) ∧
      c.processed ≤ (processLoop cancelAt l i c).processed ∧
      (processLoop cancelAt l i c).processed ≤ c.processed + l.length := by
  intro l
  induction l with
  | nil =>
    intro i c h
    exact ⟨h, le_refl _, by simp [processLoop]⟩
  | cons r rest ih =>
    intro i c h
    by_cases hc : cancelAt i = true
    · rw [processLoop, if_pos hc]
      exact ⟨h, le_refl _, by simp⟩
    · rw [processLoop, if_neg hc]
      have key := ih (i + 1)
        { processed := c.processed + 1
          successful := c.successful + if r then 1 else 0
          failed := c.failed + if r then 0 else 1 }
        (by cases r <;> simp <;> omega)
      refine ⟨key.1, le_trans (Nat.le_succ _) key.2.1, ?_⟩
      have h3 : (processLoop cancelAt rest (i + 1)
          { processed := c.processed + 1
            successful := c.successful + if r then 1 else 0
            failed := c.failed + if r then 0 else 1 }).processed
          ≤ (c.processed + 1) + rest.length := key.2.2
      simp only [List.length_cons]
      omega

/-- Running the loop with no cancellation observed over the remaining items
processes them all, counting successes and failures. -/
theorem processLoop_nocancel (cancelAt : Nat → Bool) :
    ∀ (l : List Bool) (i : Nat) (c : BatchCounters),
      (∀ k, k < l.length → cancelAt (i + k) = false) →
      processLoop cancelAt l i c =
        { processed := c.processed + l.length
          successful := c.successful + l.count true
          failed := c.failed + l.count false } := by
  intro l
  induction l with
  | nil => intro i c _; simp [processLoop]
  | cons r rest ih =>
    intro i c hall
    have h0 : cancelAt i = false := by simpa using hall 0 (by simp)
    rw [processLoop, if_neg (by simp [h0])]
    rw [ih (i + 1) _ (fun k hk => by
      have hx := hall (k + 1) (by simp; omega)
      simpa [show i + (k + 1) = i + 1 + k by omega] using hx)]
    cases r <;> simp [List.count_cons] <;> omega

/-- Cancellation first observed at iteration `k` stops the loop there: only
the first `k` remaining items are processed and counted. -/
theorem processLoop_cancel (cancelAt : Nat → Bool) :
    ∀ (l : List Bool) (k i : Nat) (c : BatchCounters),
      k < l.length →
      (∀ j, j < k → cancelAt (i + j) = false) →
      cancelAt (i + k) = true →
      processLoop cancelAt l i c =
        { processed := c.processed + k
          successful := c.successful + (l.take k).count true
          failed := c.failed + (l.take k).count false } := by
  intro l
  induction l with
  | nil => intro k i c hk _ _; exact absurd hk (by simp)
  | cons r rest ih =>
    intro k i c hk hbefore hcancel
    cases k with
    | zero =>
      rw [Nat.add_zero] at hcancel
      rw [processLoop, if_pos hcancel]
      simp
    | succ k' =>
      have h0 : cancelAt i = false := by simpa using hbefore 0 (Nat.succ_pos _)
      rw [processLoop, if_neg (by simp [h0])]
      rw [ih k' (i + 1) _ (by simpa using hk)
        (fun j hj => by
          have hx := hbefore (j + 1) (by omega)
          simpa [show i + (j + 1) = i + 1 + j by omega] using hx)
        (by
          have hx := hcancel
          simpa [show i + (k' + 1) = i + 1 + k' by omega] using hx)]
      cases r <;> simp [List.count_cons] <;> omega

/-! ## Claims -/

/-- C10: with resize enabled and positive bounds there are positive source
dimensions (width 1, height exceeding the bound) for which the computed
target width `floor(width * ratio)` is 0, so the resize step requests an
image of zero width. -/
theorem c10_resize_requests_zero_dimension :
    ∃ max_width max_height w h : Nat,
      0 < max_width ∧ 0 < max_height ∧ 0 < w ∧ 0 < h ∧
      (max_width < w ∨ max_height < h) ∧
      (resize_dims true max_width max_height w h).1 = 0 := by
  refine ⟨1920, 50, 1, 100, by norm_num, by norm_num, by norm_num, by norm_num,
    Or.inr (by norm_num), ?_⟩
  norm_num [resize_dims]

/-- C3: for every source path, settings and environment, `optimize_image`
returns a Boolean result: a successful body yields `true` and any failure of
the body is converted into a returned `false` — no failure escapes. -/
theorem c3_optimize_image_always_returns (file_path : PyStr) (s : Settings) (env : FsEnv) :
    (optimize_image file_path s env = true ∧
      ∃ p, optimize_image_body file_path s env = .ok p) ∨
    (optimize_image file_path s env = false ∧
      ∃ e, optimize_image_body file_path s env = .error e) := by
  cases h : optimize_image_body file_path s env with
  | ok p => exact Or.inl ⟨by simp [optimize_image, h], p, rfl⟩
  | error e => exact Or.inr ⟨by simp [optimize_image, h], e, rfl⟩

/-- C7: converting to JPEG, an image whose mode carries alpha or a palette
(`RGBA`, `LA`, `P`) is flattened to the opaque `RGB` mode before encoding,
so the save succeeds under Pillow's JPEG mode restriction and the encoded
result is opaque. -/
theorem c7_jpeg_flatten_safe (file_path : PyStr) (s : Settings) (img : PILImage)
    (ts : Nat) (hfmt : s.convert_format = "jpg".data)
    (hmode : img.mode ∈ jpeg_flatten_modes) :
    (jpeg_flatten img).mode = "RGB".data ∧
    mode_has_alpha (jpeg_flatten img).mode = false ∧
    optimize_image file_path s
      { open_result := .ok img, save_result := pil_save, timestamp := ts } = true := by
  have hflatmode : ∀ i : PILImage, i.mode ∈ jpeg_flatten_modes →
      (jpeg_flatten i).mode = "RGB".data := by
    intro i hi
    simp [jpeg_flatten, hi]
  have h1 := hflatmode img hmode
  refine ⟨h1, by rw [h1]; decide, ?_⟩
  have hresize_mode : (apply_resize s img).mode = img.mode := by
    rw [apply_resize]; split <;> rfl
  have hfmt2 : determine_output_format s.convert_format (apply_resize s img).format
      = "JPG".data := by
    rw [determine_output_format, hfmt, if_pos (by decide)]
    decide
  have hin : (jpeg_flatten (apply_resize s img)).mode ∈ jpeg_rawmodes := by
    rw [hflatmode _ (by rw [hresize_mode]; exact hmode)]
    decide
  have hbody : optimize_image_body file_path s
      ⟨.ok img, pil_save, ts⟩
      = match encode_save ⟨.ok img, pil_save, ts⟩ (output_path file_path s ts)
          (determine_output_format s.convert_format (apply_resize s img).format)
          (apply_resize s img) with
        | .ok _ => .ok (output_path file_path s ts)
        | .error e => .error e := rfl
  have hsave : encode_save ⟨.ok img, pil_save, ts⟩ (output_path file_path s ts)
      "JPG".data (apply_resize s img) = .ok () := by
    rw [encode_save, if_pos (Or.inr rfl)]
    show pil_save (output_path file_path s ts) "JPEG".data
      (jpeg_flatten (apply_resize s img)) = .ok ()
    have hcond : ¬("JPEG".data = "JPEG".data ∧
        (jpeg_flatten (apply_resize s img)).mode ∉ jpeg_rawmodes) := by
      rintro ⟨-, hno⟩
      exact hno hin
    rw [pil_save, if_neg hcond]
  rw [optimize_image, hbody, hfmt2, hsave]

/-- Closed instance of `c7_jpeg_flatten_safe`: an RGBA PNG converted to
JPEG saves successfully under the Pillow encoder model. -/
theorem c7_jpeg_flatten_safe_witness :
    optimize_image "a/b.png".data
      ⟨85, 6, false, 1920, 1080, "jpg".data, true, "out".data⟩
      { open_result := .ok ⟨100, 50, "RGBA".data, some "PNG".data⟩
        save_result := pil_save
        timestamp := 123 } = true :=
  (c7_jpeg_flatten_safe "a/b.png".data
    ⟨85, 6, false, 1920, 1080, "jpg".data, true, "out".data⟩
    ⟨100, 50, "RGBA".data, some "PNG".data⟩ 123 rfl (by decide)).2.2

/-- C8: a run start with an empty selection, or whose output directory
neither exists nor can be created, is rejected with a configuration-error
dialog before any processing state is entered: the outcome is one of the two
error dialogs and never a started run. -/
theorem c8_config_error_rejects_run (inp : ControlInputs)
    (dir_exists makedirs_ok : PyStr → Bool)
    (h : inp.selected_files = [] ∨
      (dir_exists (resolve_output_dir inp) = false ∧
        makedirs_ok (resolve_output_dir inp) = false)) :
    (start_optimization inp dir_exists makedirs_ok = .warnNoFiles ∨
      start_optimization inp dir_exists makedirs_ok = .dirError) ∧
    ∀ fs s, start_optimization inp dir_exists makedirs_ok ≠ .started fs s := by
  rcases h with h | ⟨h1, h2⟩
  · rw [start_optimization, if_pos h]
    exact ⟨Or.inl rfl, fun fs s => by simp⟩
  · rw [start_optimization]
    split
    · exact ⟨Or.inl rfl, fun fs s => by simp⟩
    · rw [if_pos (by rw [h1, h2]; rfl)]
      exact ⟨Or.inr rfl, fun fs s => by simp⟩

/-- Closed instance of `c8_config_error_rejects_run`: an empty selection is
rejected. -/
theorem c8_config_error_rejects_run_witness :
    start_optimization
        ⟨[], "out".data, 85, 6, false, "1920".data, "1080".data,
          "original".data, true⟩ (fun _ => true) (fun _ => true) = .warnNoFiles ∨
    start_optimization
        ⟨[], "out".data, 85, 6, false, "1920".data, "1080".data,
          "original".data, true⟩ (fun _ => true) (fun _ => true) = .dirError :=
  (c8_config_error_rejects_run _ _ _ (Or.inl rfl)).1

/-- C9: at the control boundary, invoking start while a run is active (the
processing flag is set) is rejected — the state is unchanged and no worker
is spawned — because an active run keeps the start button disabled, an
invariant that every event preserves and that the initial state satisfies. -/
theorem c9_start_rejected_while_active (st : UiState) (o : StartOutcome)
    (hInv : st.processing = true → st.optimize_enabled = false) :
    (st.processing = true → ui_step st (.clickStart o) = (st, false)) ∧
    (∀ e : UiEvent,
      (ui_step st e).1.processing = true → (ui_step st e).1.optimize_enabled = false) ∧
    (initial_ui.processing = true → initial_ui.optimize_enabled = false) := by
  refine ⟨fun hp => ?_, fun e => ?_, fun h => by cases h⟩
  · simp [ui_step, hInv hp]
  · cases e with
    | clickStart o' =>
      by_cases he : st.optimize_enabled = false
      · simp [ui_step, he]
      · cases o' with
        | started fs s2 => simp [ui_step, he]
        | warnNoFiles => simpa [ui_step, he] using hInv
        | dirError => simpa [ui_step, he] using hInv
    | workerFinish => simp [ui_step]
    | clickCancel =>
      by_cases hc : st.cancel_enabled = false
      · simpa [ui_step, hc] using hInv
      · by_cases hp : st.processing = true
        · simp [ui_step, hc, hp]
        · simp [ui_step, hc, hp]

/-- Closed instance of `c9_start_rejected_while_active`: with a run active a
start click changes nothing and spawns no worker. -/
theorem c9_start_rejected_while_active_witness :
    ui_step ⟨true, false, true⟩ (.clickStart .warnNoFiles) = (⟨true, false, true⟩, false) :=
  (c9_start_rejected_while_active ⟨true, false, true⟩ .warnNoFiles (fun _ => rfl)).1 rfl

/-- C6 fails as stated: the raw text `"0"` passes `str.isdigit()`, so the
captured bound is `0` — not the documented default `1920`, and not a
positive integer. -/
theorem c6_counterexample :
    parse_dim "0".data 1920 = 0 ∧
    ¬ 0 < parse_dim "0".data 1920 ∧
    parse_dim "0".data 1920 ≠ 1920 := by decide

/-- C6 amended: the captured bound is the parsed value whenever the raw
string is a nonempty string of decimal digits — including all-zero strings,
which capture the non-positive bound `0` — and the documented default
otherwise; with a positive default the captured value is positive iff the
raw input is not a digit string evaluating to zero. -/
theorem c6_amended_capture (raw : PyStr) (d : Nat) :
    (pyIsDigit raw = true → parse_dim raw d = pyInt raw) ∧
    (pyIsDigit raw = false → parse_dim raw d = d) ∧
    (0 < d → (0 < parse_dim raw d ↔ ¬(pyIsDigit raw = true ∧ pyInt raw = 0))) := by
  refine ⟨fun h => ?_, fun h => ?_, fun hd0 => ?_⟩
  · simp [parse_dim, h]
  · simp [parse_dim, h]
  · by_cases hd : pyIsDigit raw = true
    · simp [parse_dim, hd, Nat.pos_iff_ne_zero]
    · simp [parse_dim, hd, hd0]

/-- C2: at every loop boundary (equivalently, for every prefix of the item
outcomes) successes plus failures equal the processed count and the
processed count never exceeds the total; the processed count reaches the
total exactly when no iteration observed the cancellation flag. -/
theorem c2_counter_invariant (results : List Bool) (cancelAt : Nat → Bool) :
    (∀ m : Nat,
      (process_images (results.take m) cancelAt).successful
          + (process_images (results.take m) cancelAt).failed
        = (process_images (results.take m) cancelAt).processed ∧
      (process_images (results.take m) cancelAt).processed ≤ results.length) ∧
    ((process_images results cancelAt).processed = results.length ↔
      ∀ k, k < results.length → cancelAt k = false) := by
  constructor
  · intro m
    obtain ⟨h1, _, h3⟩ :=
      processLoop_invariant cancelAt (results.take m) 0 ⟨0, 0, 0⟩ rfl
    refine ⟨h1, le_trans h3 ?_⟩
    simp only [List.length_take, Nat.zero_add]
    omega
  · constructor
    · intro hproc
      by_contra hnot
      push_neg at hnot
      obtain ⟨k, hk, hkt⟩ := hnot
      have hkt' : cancelAt k = true := by
        revert hkt; cases cancelAt k <;> simp
      have hP : ∃ n, cancelAt n = true := ⟨k, hkt'⟩
      have hk0lt : Nat.find hP < results.length :=
        lt_of_le_of_lt (Nat.find_min' hP hkt') hk
      have hbefore : ∀ j, j < Nat.find hP → cancelAt (0 + j) = false := by
        intro j hj
        rw [Nat.zero_add]
        have hm := Nat.find_min hP hj
        revert hm; cases cancelAt j <;> simp
      have hrun := processLoop_cancel cancelAt results (Nat.find hP) 0 ⟨0, 0, 0⟩
        hk0lt hbefore (by simpa using Nat.find_spec hP)
      rw [process_images, hrun] at hproc
      simp only [Nat.zero_add] at hproc
      omega
    · intro hall
      have hrun := processLoop_nocancel cancelAt results 0 ⟨0, 0, 0⟩
        (fun k hk => by simpa using hall k hk)
      rw [process_images, hrun]
      simp

/-- Closed instance of `c2_counter_invariant`: a three-item run with no
cancellation processes all three items. -/
theorem c2_counter_invariant_witness :
    (process_images [true, false, true] (fun _ => false)).processed = 3 :=
  (c2_counter_invariant [true, false, true] (fun _ => false)).2.mpr (fun _ _ => rfl)

/-- C4: if the cancellation flag is first observed true at the loop boundary
after item `k` (with at least one item still unvisited), the run stops
there: exactly `k` items are processed, the successes and failures counted
are those of the first `k` items, and unvisited items are counted in
neither tally — these counters are the run's final outcome. -/
theorem c4_cancellation_stops_run (results : List Bool) (cancelAt : Nat → Bool)
    (k : Nat) (hk : k < results.length)
    (hbefore : ∀ j, j < k → cancelAt j = false)
    (hcancel : cancelAt k = true) :
    process_images results cancelAt =
      { processed := k
        successful := (results.take k).count true
        failed := (results.take k).count false } := by
  rw [process_images,
    processLoop_cancel cancelAt results k 0 ⟨0, 0, 0⟩ hk
      (fun j hj => by simpa using hbefore j hj)
      (by simpa using hcancel)]
  simp

/-- Closed instance of `c4_cancellation_stops_run`: cancelling a four-item
run at the boundary after item 2 yields exactly two processed items. -/
theorem c4_cancellation_stops_run_witness :
    process_images [true, true, false, true] (fun i => decide (2 ≤ i)) =
      { processed := 2, successful := 2, failed := 0 } := by
  rw [c4_cancellation_stops_run [true, true, false, true] (fun i => decide (2 ≤ i)) 2
    (by simp) (fun j hj => by simp only [decide_eq_false_iff_not]; omega) (by simp)]
  decide

/-- C1: with resize enabled and positive source dimensions, the resize step
runs exactly when a dimension exceeds its bound; when it runs the new
dimensions are the floors of the originals scaled by
`min(maxWidth/width, maxHeight/height)`, neither output dimension exceeds
its bound or its original (no upscaling), and the aspect ratio is preserved
up to one pixel of rounding; within bounds the dimensions are unchanged. -/
theorem c1_resize_contract (max_width max_height w h : Nat)
    (hw : 0 < w) (hh : 0 < h) :
    (¬(max_width < w ∨ max_height < h) →
      resize_dims true max_width max_height w h = (w, h)) ∧
    ((max_width < w ∨ max_height < h) →
      resize_dims true max_width max_height w h
          = ((⌊(w : ℚ) * min ((max_width : ℚ) / w) ((max_height : ℚ) / h)⌋).toNat,
             (⌊(h : ℚ) * min ((max_width : ℚ) / w) ((max_height : ℚ) / h)⌋).toNat) ∧
      (resize_dims true max_width max_height w h).1 ≤ max_width ∧
      (resize_dims true max_width max_height w h).2 ≤ max_height ∧
      (resize_dims true max_width max_height w h).1 ≤ w ∧
      (resize_dims true max_width max_height w h).2 ≤ h ∧
      ((resize_dims true max_width max_height w h).1 : ℤ) * h
          - ((resize_dims true max_width max_height w h).2 : ℤ) * w < w ∧
      ((resize_dims true max_width max_height w h).2 : ℤ) * w
          - ((resize_dims true max_width max_height w h).1 : ℤ) * h < h) := by
  have hwQ : (0 : ℚ) < (w : ℚ) := by exact_mod_cast hw
  have hhQ : (0 : ℚ) < (h : ℚ) := by exact_mod_cast hh
  set ρ : ℚ := min ((max_width : ℚ) / w) ((max_height : ℚ) / h) with hρdef
  have hρ0 : 0 ≤ ρ :=
    le_min (div_nonneg (Nat.cast_nonneg _) hwQ.le)
      (div_nonneg (Nat.cast_nonneg _) hhQ.le)
  constructor
  · intro hno
    push_neg at hno
    rw [resize_dims, if_neg]
    simp only [Bool.true_and, Bool.or_eq_true, decide_eq_true_eq]
    exact fun hor => hor.elim (fun hx => absurd hx (by omega))
      (fun hx => absurd hx (by omega))
  · intro htrig
    have hcond : (true && (decide (max_width < w) || decide (max_height < h))) = true := by
      simp only [Bool.true_and, Bool.or_eq_true, decide_eq_true_eq]
      exact htrig
    have hval : resize_dims true max_width max_height w h
        = ((⌊(w : ℚ) * ρ⌋).toNat, (⌊(h : ℚ) * ρ⌋).toNat) := by
      rw [resize_dims, if_pos hcond]
    have hboundw : ⌊(w : ℚ) * ρ⌋ ≤ (max_width : ℤ) := by
      have hle : (w : ℚ) * ρ ≤ (max_width : ℚ) := by
        calc (w : ℚ) * ρ ≤ (w : ℚ) * ((max_width : ℚ) / w) :=
              mul_le_mul_of_nonneg_left (min_le_left _ _) hwQ.le
          _ = (max_width : ℚ) := by field_simp
      have := Int.floor_mono hle
      rwa [Int.floor_natCast] at this
    have hboundh : ⌊(h : ℚ) * ρ⌋ ≤ (max_height : ℤ) := by
      have hle : (h : ℚ) * ρ ≤ (max_height : ℚ) := by
        calc (h : ℚ) * ρ ≤ (h : ℚ) * ((max_height : ℚ) / h) :=
              mul_le_mul_of_nonneg_left (min_le_right _ _) hhQ.le
          _ = (max_height : ℚ) := by field_simp
      have := Int.floor_mono hle
      rwa [Int.floor_natCast] at this
    have hρ1 : ρ ≤ 1 := by
      rcases htrig with hcase | hcase
      · refine le_trans (min_le_left _ _) ?_
        rw [div_le_one hwQ]
        exact_mod_cast hcase.le
      · refine le_trans (min_le_right _ _) ?_
        rw [div_le_one hhQ]
        exact_mod_cast hcase.le
    have hupw : ⌊(w : ℚ) * ρ⌋ ≤ (w : ℤ) := by
      have hle : (w : ℚ) * ρ ≤ (w : ℚ) := by
        calc (w : ℚ) * ρ ≤ (w : ℚ) * 1 := mul_le_mul_of_nonneg_left hρ1 hwQ.le
          _ = (w : ℚ) := mul_one _
      have := Int.floor_mono hle
      rwa [Int.floor_natCast] at this
    have huph : ⌊(h : ℚ) * ρ⌋ ≤ (h : ℤ) := by
      have hle : (h : ℚ) * ρ ≤ (h : ℚ) := by
        calc (h : ℚ) * ρ ≤ (h : ℚ) * 1 := mul_le_mul_of_nonneg_left hρ1 hhQ.le
          _ = (h : ℚ) := mul_one _
      have := Int.floor_mono hle
      rwa [Int.floor_natCast] at this
    have ha0 : 0 ≤ ⌊(w : ℚ) * ρ⌋ :=
      Int.floor_nonneg.mpr (mul_nonneg (Nat.cast_nonneg _) hρ0)
    have hb0 : 0 ≤ ⌊(h : ℚ) * ρ⌋ :=
      Int.floor_nonneg.mpr (mul_nonneg (Nat.cast_nonneg _) hρ0)
    rw [hval]
    refine ⟨rfl, Int.toNat_le.mpr hboundw, Int.toNat_le.mpr hboundh,
      Int.toNat_le.mpr hupw, Int.toNat_le.mpr huph, ?_, ?_⟩
    · rw [Int.toNat_of_nonneg ha0, Int.toNat_of_nonneg hb0]
      have key : ((⌊(w : ℚ) * ρ⌋ : ℚ)) * h - ((⌊(h : ℚ) * ρ⌋ : ℚ)) * w < w := by
        have hfa : ((⌊(w : ℚ) * ρ⌋ : ℚ)) ≤ (w : ℚ) * ρ := Int.floor_le _
        have hfb : (h : ℚ) * ρ - 1 < ((⌊(h : ℚ) * ρ⌋ : ℚ)) := Int.sub_one_lt_floor _
        have h1 := mul_le_mul_of_nonneg_right hfa hhQ.le
        have h2 := mul_lt_mul_of_pos_right hfb hwQ
        nlinarith
      exact_mod_cast key
    · rw [Int.toNat_of_nonneg ha0, Int.toNat_of_nonneg hb0]
      have key : ((⌊(h : ℚ) * ρ⌋ : ℚ)) * w - ((⌊(w : ℚ) * ρ⌋ : ℚ)) * h < h := by
        have hfa : ((⌊(h : ℚ) * ρ⌋ : ℚ)) ≤ (h : ℚ) * ρ := Int.floor_le _
        have hfb : (w : ℚ) * ρ - 1 < ((⌊(w : ℚ) * ρ⌋ : ℚ)) := Int.sub_one_lt_floor _
        have h1 := mul_le_mul_of_nonneg_right hfa hwQ.le
        have h2 := mul_lt_mul_of_pos_right hfb hhQ
        nlinarith
      exact_mod_cast key

/-- Closed instances of `c1_resize_contract`: an in-bounds image is left
alone; a 4k image is bounded by 1920×1080. -/
theorem c1_resize_contract_witness :
    resize_dims true 1920 1080 1600 900 = (1600, 900) ∧
    (resize_dims true 1920 1080 3840 2160).1 ≤ 1920 ∧
    (resize_dims true 1920 1080 3840 2160).2 ≤ 1080 :=
  ⟨(c1_resize_contract 1920 1080 1600 900 (by norm_num) (by norm_num)).1 (by omega),
   ((c1_resize_contract 1920 1080 3840 2160 (by norm_num) (by norm_num)).2
      (Or.inl (by norm_num))).2.1,
   ((c1_resize_contract 1920 1080 3840 2160 (by norm_num) (by norm_num)).2
      (Or.inl (by norm_num))).2.2.1⟩

/-- C5: the output file name agrees with the specification's OutputNamer on
every input — base name without extension, the conversion extension when
converting and the original extension otherwise, with `_optimized_` and the
call-time timestamp inserted when names are not preserved — and the output
path joins it onto the configured output directory. -/
theorem c5_output_naming (file_path : PyStr) (s : Settings) (ts : Nat) :
    output_filename file_path s.convert_format s.preserve_names ts
      = spec_output_filename file_path s.convert_format s.preserve_names ts ∧
    output_path file_path s ts
      = pyJoin s.output_dir
          (spec_output_filename file_path s.convert_format s.preserve_names ts) := by
  have h1 : output_filename file_path s.convert_format s.preserve_names ts
      = spec_output_filename file_path s.convert_format s.preserve_names ts := by
    by_cases hp : s.preserve_names = true
    · by_cases hc : s.convert_format = "original".data
      · simp [output_filename, spec_output_filename, hp, hc]
      · simp [output_filename, spec_output_filename, hp, hc]
    · by_cases hc : s.convert_format = "original".data
      · simp [output_filename, spec_output_filename, hp, hc, splitext_basename_snd]
      · simp [output_filename, spec_output_filename, hp, hc]
  exact ⟨h1, by rw [output_path, h1]⟩

/-- Closed instances of `c6_amended_capture` at `"500"`, `"abc"` and `"0"`. -/
theorem c6_amended_capture_witness :
    parse_dim "500".data 1920 = pyInt "500".data ∧
    parse_dim "abc".data 1920 = 1920 ∧
    (0 < parse_dim "0".data 1920 ↔ ¬(pyIsDigit "0".data = true ∧ pyInt "0".data = 0)) :=
  ⟨(c6_amended_capture "500".data 1920).1 (by decide),
   (c6_amended_capture "abc".data 1920).2.1 (by decide),
   (c6_amended_capture "0".data 1920).2.2 (by decide)⟩

end BulkImageOptimizer
